import Mathlib

/-!
Shallow embedding of the call-session tool layer of the smb_voice repository
(src/tools/appointment.ts, src/tools/lead.ts, src/tools/transfer.ts,
src/agent.ts, and the Twilio status-callback handler of the API server),
together with theorems settling the specification claims about it.

Conventions of the embedding:
- JavaScript values that may be `undefined`/`null`/empty are modelled as
  `Option String`; JavaScript truthiness of such a value is `truthy`.
- Asynchronous store writes are modelled by explicit state passing on a
  per-tool store structure; a store operation that may throw is given a
  Boolean fault flag in the tool environment, and a thrown error is the
  jump to the enclosing catch handler, exactly as in the source.
- Instants are minutes since the Unix epoch (`Int`); civil date-times are
  converted with the standard Gregorian days-from-civil computation, which
  is what `new Date("YYYY-MM-DDTHH:MM:00")` performs before subtracting the
  host (server-local) UTC offset per ECMAScript (a date-time string without
  an offset designator is interpreted in local time).
- Each distinct string literal returned to the caller by a tool is one
  constructor of that tool's message type.
-/

namespace SMBVoice

/-- JavaScript truthiness of a possibly-absent string: `undefined`/`null`
(`none`) and the empty string are falsy, every other string is truthy. -/
def truthy : Option String → Bool
  | none => false
  | some s => s != ""

/-- JavaScript `a || b` on possibly-absent strings. -/
def jsOr (a b : Option String) : Option String :=
  if truthy a then a else b

/-- JavaScript `a || d` where the fallback `d` is a present string. -/
def jsOrDefault (a : Option String) (d : String) : String :=
  if truthy a then a.getD "" else d

/-- Days from 1970-01-01 to the civil date `y-m-d` (proleptic Gregorian,
valid for `y ≥ 1970`), the standard days-from-civil computation performed
by the ECMAScript `Date` parser. -/
def daysFromCivil (y m d : Nat) : Nat :=
  let yy := if m ≤ 2 then y - 1 else y
  let era := yy / 400
  let yoe := yy % 400
  let mp := if m > 2 then m - 3 else m + 9
  let doy := (153 * mp + 2) / 5 + d - 1
  let doe := yoe * 365 + yoe / 4 - yoe / 100 + doy
  era * 146097 + doe - 719468

/-- Wall-clock minutes since the epoch of the civil date-time assembled by
the source from its `date` (`YYYY-MM-DD`) and `time` (`HH:MM`) arguments as
the string `date + "T" + time + ":00"`. -/
def combineDateTime (y m d hh mi : Nat) : Nat :=
  daysFromCivil y m d * 1440 + hh * 60 + mi

/-- Tenant (business) configuration row, restricted to the fields the
embedded tools read. -/
structure Business where
  google_calendar_connected : Bool := false
  google_calendar_id : Option String := none
  hubspot_api_key : Option String := none
  timezone : Option String := none
  business_hours : Option (List (String × String × String)) := none
  deriving Repr, DecidableEq

/-- Immutable per-call tool context captured at call start (agent.ts builds
one object satisfying the appointment, lead and transfer context types). -/
structure ToolCtx where
  businessId : String
  callId : String
  callerPhone : Option String := none
  twilioCallSid : Option String := none
  deriving Repr, DecidableEq

/-! ### Appointment tool (src/tools/appointment.ts) -/

/-- Arguments of `book_appointment`, with the date and time strings already
split into their numeric fields (the zod schema guarantees the
`YYYY-MM-DD` / `HH:MM` shapes). -/
structure ApptArgs where
  y : Nat
  mth : Nat
  d : Nat
  hh : Nat
  mi : Nat
  customer_name : String
  customer_email : String
  customer_phone : Option String := none
  purpose : Option String := none
  duration_minutes : Nat := 30
  deriving Repr, DecidableEq

/-- Result data of a successful `calendar.events.insert` call. -/
structure CalRes where
  id : Option String := none
  hangoutLink : Option String := none
  deriving Repr, DecidableEq

/-- Environment of one `book_appointment` invocation: the wall clock, the
server-local and tenant UTC offsets, the business lookup result, the
outcome of the external calendar call, and fault flags for the three store
writes the tool performs. -/
structure ApptEnv where
  nowEpochMin : Int
  hostTzOffsetMin : Int
  tenantTzOffsetMin : Int
  business : Option Business
  calendarResult : Except Unit CalRes
  createAppointmentFails : Bool := false
  logEventFails : Bool := false
  updateCallFails : Bool := false

/-- Appointment row as created by `db.createAppointment`. -/
structure Appointment where
  business_id : String
  call_id : String
  title : String
  description : Option String
  scheduled_at : Int
  duration_minutes : Nat
  attendee_name : String
  attendee_email : String
  attendee_phone : Option String
  google_calendar_event_id : Option String
  google_meet_link : Option String
  status : String
  deriving Repr, DecidableEq

/-- Store slice touched by the appointment tool: appointment rows, the
append-only call-event log (event types), and the call outcome column. -/
structure ApptStore where
  appointments : List Appointment := []
  events : List String := []
  callOutcome : Option String := none
  deriving Repr, DecidableEq

/-- Distinct strings returned by `book_appointment`:
`datePassed` is the date-and-time-has-already-passed message,
`bookedWithLink` the confirmation mentioning the Google Meet invitation,
`bookedNoLink` the confirmation mentioning a confirmation email, and
`bookFailed` the catch-handler apology offering a manual transfer. -/
inductive ApptMsg
  | datePassed
  | bookedWithLink
  | bookedNoLink
  | bookFailed
  deriving Repr, DecidableEq

/-- Epoch instant of `new Date(date + "T" + time + ":00")`: the civil
date-time interpreted in the server-local timezone. -/
def scheduledAtEpochMin (env : ApptEnv) (a : ApptArgs) : Int :=
  (combineDateTime a.y a.mth a.d a.hh a.mi : Int) - env.hostTzOffsetMin

/-- Specification-side definition (from the claim wording, not the code):
the date and time combined into an absolute instant in the tenant's
configured timezone. -/
def specTenantInstantMin (env : ApptEnv) (a : ApptArgs) : Int :=
  (combineDateTime a.y a.mth a.d a.hh a.mi : Int) - env.tenantTzOffsetMin

/-- Calendar-event id and Meet link obtained by the tool: populated only
when the tenant calendar is connected and the insert call succeeds. -/
def calendarEnrichment (env : ApptEnv) : Option String × Option String :=
  match env.business with
  | none => (none, none)
  | some b =>
    if b.google_calendar_connected && truthy b.google_calendar_id then
      match env.calendarResult with
      | .ok r => (r.id, r.hangoutLink)
      | .error _ => (none, none)
    else (none, none)

/-- Appointment row passed to `db.createAppointment`. -/
def mkApptRow (ctx : ToolCtx) (env : ApptEnv) (a : ApptArgs) : Appointment :=
  { business_id := ctx.businessId
    call_id := ctx.callId
    title := jsOrDefault a.purpose ("Meeting with " ++ a.customer_name)
    description := a.purpose
    scheduled_at := scheduledAtEpochMin env a
    duration_minutes := a.duration_minutes
    attendee_name := a.customer_name
    attendee_email := a.customer_email
    attendee_phone := jsOr a.customer_phone ctx.callerPhone
    google_calendar_event_id := (calendarEnrichment env).1
    google_meet_link := (calendarEnrichment env).2
    status := "scheduled" }

/-- The `execute` body of `createBookAppointmentTool`, as a function from
environment and store to the spoken message and the updated store. -/
def bookAppointment (ctx : ToolCtx) (env : ApptEnv) (a : ApptArgs)
    (s : ApptStore) : ApptMsg × ApptStore :=
  if scheduledAtEpochMin env a < env.nowEpochMin then
    (.datePassed, s)
  else
    match env.business with
    | none => (.bookFailed, s)
    | some _ =>
      if env.createAppointmentFails then (.bookFailed, s)
      else
        let s1 := { s with appointments := s.appointments ++ [mkApptRow ctx env a] }
        if env.logEventFails then (.bookFailed, s1)
        else
          let s2 := { s1 with events := s1.events ++ ["appointment_booked"] }
          if env.updateCallFails then (.bookFailed, s2)
          else
            let s3 := { s2 with callOutcome := some "appointment_booked" }
            ((if (calendarEnrichment env).2.isSome then ApptMsg.bookedWithLink
              else ApptMsg.bookedNoLink), s3)

/-! ### Lead capture tool (src/tools/lead.ts) -/

/-- Arguments of `create_lead`. -/
structure LeadArgs where
  name : String
  email : Option String := none
  phone : Option String := none
  company : Option String := none
  interest_level : String := "medium"
  notes : Option String := none
  deriving Repr, DecidableEq

/-- Lead row as created by `db.createLead` and optionally back-filled by
`db.updateLead` after a successful HubSpot sync. -/
structure Lead where
  business_id : String
  call_id : String
  name : String
  email : Option String
  phone : Option String
  company : Option String
  source : String
  status : String
  interest_level : String
  notes : Option String
  hubspot_contact_id : Option String := none
  synced_at : Option Int := none
  deriving Repr, DecidableEq

/-- Store slice touched by the lead tool: lead rows, the call-event log,
and the columns of the call row that `db.updateCall` writes. -/
structure LeadStore where
  leads : List Lead := []
  events : List String := []
  callOutcome : Option String := none
  caller_name : Option String := none
  caller_email : Option String := none
  deriving Repr, DecidableEq

/-- Environment of one `create_lead` invocation: the business lookup
result, the outcome of the HubSpot contact-creation call (`.ok` carries
the remote contact id), the wall clock used for `synced_at`, and fault
flags for the four store writes. -/
structure LeadEnv where
  business : Option Business
  hubspotResult : Except Unit String
  nowEpochMin : Int
  createLeadFails : Bool := false
  updateLeadFails : Bool := false
  logEventFails : Bool := false
  updateCallFails : Bool := false

/-- Distinct strings returned by `create_lead`:
`askContact` asks for an email address or phone number,
`saved` is the confirmation (mentioning the email when one was given,
otherwise the phone), and `saveFailed` the catch-handler apology. -/
inductive LeadMsg
  | askContact
  | saved (viaEmail : Bool)
  | saveFailed
  deriving Repr, DecidableEq

/-- Lead row passed to `db.createLead`. -/
def mkLead (ctx : ToolCtx) (a : LeadArgs) : Lead :=
  { business_id := ctx.businessId
    call_id := ctx.callId
    name := a.name
    email := a.email
    phone := jsOr a.phone ctx.callerPhone
    company := a.company
    source := "voice_call"
    status := "new"
    interest_level := a.interest_level
    notes := a.notes }

/-- Tail of `create_lead` after the HubSpot step: log the `lead_captured`
event, then update the call outcome and caller identity, then return the
confirmation message. `st` is the store holding the created lead row. -/
def leadFinish (env : LeadEnv) (a : LeadArgs) (st : LeadStore) :
    LeadMsg × LeadStore :=
  if env.logEventFails then (.saveFailed, st)
  else
    let s2 := { st with events := st.events ++ ["lead_captured"] }
    if env.updateCallFails then (.saveFailed, s2)
    else
      let s3 := { s2 with callOutcome := some "lead_captured",
                          caller_name := some a.name,
                          caller_email := a.email }
      (.saved (truthy a.email), s3)

/-- The `execute` body of `createLeadCaptureTool`. -/
def leadCapture (ctx : ToolCtx) (env : LeadEnv) (a : LeadArgs)
    (s : LeadStore) : LeadMsg × LeadStore :=
  if !(truthy a.email) && !(truthy a.phone) && !(truthy ctx.callerPhone) then
    (.askContact, s)
  else
    match env.business with
    | none => (.saveFailed, s)
    | some b =>
      if env.createLeadFails then (.saveFailed, s)
      else
        let lead := mkLead ctx a
        let s1 := { s with leads := s.leads ++ [lead] }
        if truthy b.hubspot_api_key then
          match env.hubspotResult with
          | .ok cid =>
            if env.updateLeadFails then (.saveFailed, s1)
            else
              leadFinish env a
                { s with leads := s.leads ++
                    [{ lead with hubspot_contact_id := some cid,
                                 synced_at := some env.nowEpochMin }] }
          | .error _ => leadFinish env a s1
        else leadFinish env a s1

/-! ### Transfer and business-hours tools (src/tools/transfer.ts) -/

/-- Call row fields read by the transfer tool. -/
structure CallRow where
  phone_number_id : Option String := none
  deriving Repr, DecidableEq

/-- Phone-number configuration row fields read by the transfer tool. -/
structure PhoneNumberRow where
  forward_to : Option String := none
  deriving Repr, DecidableEq

/-- Environment of one `transfer_to_human` invocation: the business and
call lookups, the `phone_numbers` row returned by the `.single()` query
(`none` models both a missing row and a query error, since the source
destructures only `data`), the outcome of the Twilio redirect, and fault
flags for the two store writes. -/
structure TransferEnv where
  business : Option Business
  call : Option CallRow
  phoneNumber : Option PhoneNumberRow
  twilioOk : Bool
  updateCallFails : Bool := false
  logEventFails : Bool := false

/-- Store slice touched by the transfer tool, with a counter of attempted
carrier-level (Twilio) redirects as the observable for the external call. -/
structure TransferStore where
  transferred_to_human : Bool := false
  callOutcome : Option String := none
  notes : Option String := none
  events : List String := []
  twilioAttempts : Nat := 0
  deriving Repr, DecidableEq

/-- Distinct strings returned by `transfer_to_human`:
`noForwardFollowUp` says the transfer cannot be completed now and the team
will reach out (manual follow-up), `transferringNow` is the
transferring-you-now message of the successful Twilio path,
`connectingYou` the connect-you-with-our-team message of the fallback
path, and `transferFailed` the catch-handler apology. -/
inductive TransferMsg
  | noForwardFollowUp
  | transferringNow
  | connectingYou
  | transferFailed
  deriving Repr, DecidableEq

/-- Whether a transfer-tool message reads as an active transfer in
progress (as opposed to manual follow-up or an apology). -/
def TransferMsg.inProgressWording : TransferMsg → Bool
  | .transferringNow => true
  | .connectingYou => true
  | _ => false

/-- Call-notes text written by the transfer tool. -/
def mkTransferNotes (reason : String) (notes : Option String) : String :=
  ("Transfer reason: " ++ reason ++ ". " ++ notes.getD "").trim

/-- The `execute` body of `createTransferToHumanTool`. -/
def transferToHuman (ctx : ToolCtx) (env : TransferEnv) (reason : String)
    (urgency : String) (notes : Option String) (s : TransferStore) :
    TransferMsg × TransferStore :=
  match env.business with
  | none => (.transferFailed, s)
  | some _ =>
    match env.call with
    | none => (.transferFailed, s)
    | some call =>
      if !(truthy call.phone_number_id) then (.transferFailed, s)
      else
        let transferNumber := env.phoneNumber.bind (·.forward_to)
        if !(truthy transferNumber) then (.noForwardFollowUp, s)
        else
          if env.updateCallFails then (.transferFailed, s)
          else
            let s1 := { s with transferred_to_human := true,
                               callOutcome := some "transferred",
                               notes := some (mkTransferNotes reason notes) }
            if env.logEventFails then (.transferFailed, s1)
            else
              let s2 := { s1 with events := s1.events ++ ["transfer_initiated"] }
              if truthy ctx.twilioCallSid then
                let s3 := { s2 with twilioAttempts := s2.twilioAttempts + 1 }
                if env.twilioOk then (.transferringNow, s3)
                else (.connectingYou, s3)
              else (.connectingYou, s2)

/-- Weekdays, for the business-hours tool. -/
inductive Weekday
  | monday | tuesday | wednesday | thursday | friday | saturday | sunday
  deriving Repr, DecidableEq

/-- Long-format English weekday names produced by
`toLocaleDateString("en-US", { weekday: "long" })`. -/
def weekdayLong : Weekday → String
  | .monday => "Monday"
  | .tuesday => "Tuesday"
  | .wednesday => "Wednesday"
  | .thursday => "Thursday"
  | .friday => "Friday"
  | .saturday => "Saturday"
  | .sunday => "Sunday"

/-- Short-format English weekday names. -/
def weekdayShort : Weekday → String
  | .monday => "Mon"
  | .tuesday => "Tue"
  | .wednesday => "Wed"
  | .thursday => "Thu"
  | .friday => "Fri"
  | .saturday => "Sat"
  | .sunday => "Sun"

/-- Narrow-format English weekday names. -/
def weekdayNarrow : Weekday → String
  | .monday => "M"
  | .tuesday => "T"
  | .wednesday => "W"
  | .thursday => "T"
  | .friday => "F"
  | .saturday => "S"
  | .sunday => "S"

/-- ECMAScript `toLocaleDateString("en-US", { weekday: opt, timeZone })`
restricted to the weekday field: per ECMA-402 `GetOption`, the `weekday`
option accepts exactly the values `long`, `short` and `narrow`; any other
value (such as the `lowercase` the source passes) raises a `RangeError`,
modelled as `.error`. -/
def toLocaleWeekday (opt : String) (w : Weekday) : Except Unit String :=
  if opt = "long" then .ok (weekdayLong w)
  else if opt = "short" then .ok (weekdayShort w)
  else if opt = "narrow" then .ok (weekdayNarrow w)
  else .error ()

/-- UTF-16 code-unit lexicographic order on char lists, the order
JavaScript uses to compare the zero-padded `HH:MM` strings. -/
def charListLt : List Char → List Char → Bool
  | [], [] => false
  | [], _ :: _ => true
  | _ :: _, [] => false
  | a :: as, b :: bs =>
    if a.toNat < b.toNat then true
    else if b.toNat < a.toNat then false
    else charListLt as bs

/-- JavaScript string `<`. -/
def jsStrLt (a b : String) : Bool := charListLt a.data b.data

/-- JavaScript string `>=` (negation of `<` with the arguments swapped). -/
def jsStrGe (a b : String) : Bool := !(jsStrLt a b)

/-- Environment of one `check_business_hours` invocation: the business
lookup (with a fault flag for a throwing lookup), and the current weekday
and `HH:MM` clock reading in the tenant timezone. -/
structure HoursEnv where
  business : Option Business
  nowWeekday : Weekday
  nowTimeHHMM : String
  getBusinessFails : Bool := false

/-- Distinct strings returned by `check_business_hours`:
`genericMonFri` is the Monday-through-Friday 9-to-5 fallback,
`closedToday` the closed-today message, `openUntil` the currently-open
report, `closedNowOpenHours` the currently-closed report quoting the
day's hours, and `hoursErrorFallback` the catch-handler offer to schedule
a callback. -/
inductive HoursMsg
  | genericMonFri
  | closedToday
  | openUntil
  | closedNowOpenHours
  | hoursErrorFallback
  deriving Repr, DecidableEq

/-- The `execute` body of `createBusinessHoursTool`. Note the source
computes the current weekday with `toLocaleDateString("en-US",
{ weekday: "lowercase", timeZone })`; `lowercase` is not a legal value of
the `weekday` option, so that call raises a `RangeError`, which the
enclosing catch converts to `hoursErrorFallback`. -/
def businessHours (env : HoursEnv) : HoursMsg :=
  if env.getBusinessFails then .hoursErrorFallback
  else
    match env.business with
    | none => .genericMonFri
    | some b =>
      match b.business_hours with
      | none => .genericMonFri
      | some hours =>
        match toLocaleWeekday "lowercase" env.nowWeekday with
        | .error _ => .hoursErrorFallback
        | .ok currentDay =>
          match hours.lookup currentDay with
          | none => .closedToday
          | some (openT, closeT) =>
            if jsStrGe env.nowTimeHHMM openT && jsStrLt env.nowTimeHHMM closeT
            then .openUntil
            else .closedNowOpenHours

/-! ### Agent session entry (src/agent.ts) -/

/-- Room-metadata bundle handed to the agent entry point; a field absent
from the JSON metadata parses to `undefined`, modelled as `none`. -/
structure RoomMetadata where
  businessId : Option String := none
  callId : Option String := none
  callerPhone : Option String := none
  twilioCallSid : Option String := none
  deriving Repr, DecidableEq

/-- Result of the agent entry point. `sessionStarted` is the only
constructor in which the agent session is constructed and started (and
hence the only one in which the turn loop can ever run); both `fatal`
constructors are raised before `new voice.AgentSession` is evaluated. -/
inductive EntryResult
  | fatalMissingMetadata
  | fatalBusinessNotFound
  | sessionStarted (businessId callId : String)
  deriving Repr, DecidableEq

/-- The `entry` body of the agent definition, up to the start of the
session: validate the metadata bundle, then load the business, then
construct and start the session. -/
def agentEntry (meta : RoomMetadata) (business : Option Business) :
    EntryResult :=
  if !(truthy meta.businessId) || !(truthy meta.callId) then
    .fatalMissingMetadata
  else
    match business with
    | none => .fatalBusinessNotFound
    | some _ =>
      .sessionStarted (meta.businessId.getD "") (meta.callId.getD "")

/-! ### Call status updates (src/agent.ts and the API server) -/

/-- Lifecycle status of a call row. -/
inductive CallStatus
  | in_progress
  | completed
  | failed
  | abandoned
  deriving Repr, DecidableEq

/-- The three operations of the core that write the `status` column:
the session-start update (agent.ts, after connecting), a Twilio
status-callback delivery carrying the provider call status string
(API server, `POST /api/twilio/status`), and the shutdown finalization
(`updateFinalCallStats`). -/
inductive CallOp
  | sessionStart
  | twilioCallback (callStatus : String)
  | shutdownFinalize
  deriving Repr, DecidableEq

/-- Effect of one status-writing operation on the `status` column. Each
operation writes its value unconditionally; none reads the current
status first. -/
def applyStatusOp : CallOp → CallStatus → CallStatus
  | .sessionStart, _ => .in_progress
  | .twilioCallback cs, s =>
    if cs = "completed" then .completed
    else if cs = "failed" || cs = "busy" || cs = "no-answer" then .failed
    else s
  | .shutdownFinalize, _ => .completed

/-- Status field after a sequence of status-writing operations. -/
def runStatusOps (s : CallStatus) (ops : List CallOp) : CallStatus :=
  ops.foldl (fun st op => applyStatusOp op st) s

/-- The forward-only transition discipline asserted by the specification:
a step leaves the status unchanged or moves it from `in_progress` to a
terminal value; terminal values are never overwritten. -/
def statusForwardOnly (oldS newS : CallStatus) : Bool :=
  newS == oldS || (oldS == .in_progress && newS != .in_progress)

/-! ### Concrete fixtures used by witnesses and counterexamples -/

/-- A concrete tool context. -/
def ctx0 : ToolCtx := { businessId := "biz-1", callId := "call-1" }

/-- Concrete `book_appointment` arguments for 2025-06-15 at 10:00. -/
def apptArgsJune : ApptArgs :=
  { y := 2025, mth := 6, d := 15, hh := 10, mi := 0,
    customer_name := "Jane Doe", customer_email := "jane@example.com" }

/-- Environment in which the server runs in UTC, the tenant timezone is
UTC+05:30 (offset 330 minutes), the wall clock reads one hour before the
civil date-time of `apptArgsJune` taken as UTC, no calendar is connected,
and every store write succeeds. -/
def apptEnvTzMismatch : ApptEnv :=
  { nowEpochMin := (combineDateTime 2025 6 15 10 0 : Int) - 60,
    hostTzOffsetMin := 0, tenantTzOffsetMin := 330,
    business := some {}, calendarResult := .error () }

/-- Environment in which the server and tenant timezones are both UTC and
the wall clock reads exactly the civil date-time of `apptArgsJune`. -/
def apptEnvBoundary : ApptEnv :=
  { nowEpochMin := (combineDateTime 2025 6 15 10 0 : Int),
    hostTzOffsetMin := 0, tenantTzOffsetMin := 0,
    business := some {}, calendarResult := .error () }

/-- `apptEnvTzMismatch` with a throwing audit-event insert. -/
def apptEnvLogFail : ApptEnv := { apptEnvTzMismatch with logEventFails := true }

/-- A business with a HubSpot API key configured. -/
def bizHub : Business := { hubspot_api_key := some "key-1" }

/-- Lead environment with CRM configured and the HubSpot call throwing. -/
def leadEnvErr : LeadEnv :=
  { business := some bizHub, hubspotResult := .error (), nowEpochMin := 0 }

/-- Concrete `create_lead` arguments carrying only a phone contact. -/
def leadArgsJane : LeadArgs :=
  { name := "Jane Smith", phone := some "+15557778888" }

/-- The per-weekday open/close map of the repository's own test fixture
(Monday through Friday, 09:00 to 17:00, lowercase keys as in the schema
comment and fixtures). -/
def hoursMonFri : List (String × String × String) :=
  [("monday", "09:00", "17:00"), ("tuesday", "09:00", "17:00"),
   ("wednesday", "09:00", "17:00"), ("thursday", "09:00", "17:00"),
   ("friday", "09:00", "17:00")]

/-- A business with the fixture hours map configured. -/
def bizWithHours : Business :=
  { business_hours := some hoursMonFri, timezone := some "America/New_York" }

/-- Transfer environment with a forwarding number configured and the
Twilio redirect failing. -/
def transferEnvFwd : TransferEnv :=
  { business := some {}, call := some { phone_number_id := some "pn-1" },
    phoneNumber := some { forward_to := some "+15550001111" },
    twilioOk := false }

/-! ### Claim theorems -/

/-- C1: for every `book_appointment` invocation whose combined date/time
instant is in the future (and whose business lookup and store writes
succeed), an appointment row is created with status `scheduled` and the
call outcome is updated to `appointment_booked`, for every calendar
configuration and every outcome of the external calendar call; a calendar
failure only omits the meeting-link enrichment. -/
theorem bookAppointment_calendar_independent
    (ctx : ToolCtx) (env : ApptEnv) (a : ApptArgs) (s : ApptStore)
    (b : Business)
    (hb : env.business = some b)
    (hfut : env.nowEpochMin < scheduledAtEpochMin env a)
    (h1 : env.createAppointmentFails = false)
    (h2 : env.logEventFails = false)
    (h3 : env.updateCallFails = false) :
    (bookAppointment ctx env a s).2.appointments
        = s.appointments ++ [mkApptRow ctx env a] ∧
    (mkApptRow ctx env a).status = "scheduled" ∧
    (bookAppointment ctx env a s).2.callOutcome = some "appointment_booked" ∧
    (env.calendarResult = .error () →
      (mkApptRow ctx env a).google_meet_link = none) := by
  have hnot : ¬ scheduledAtEpochMin env a < env.nowEpochMin := by omega
  refine ⟨?_, rfl, ?_, ?_⟩
  · simp [bookAppointment, hb, h1, h2, h3, hnot]
  · simp [bookAppointment, hb, h1, h2, h3, hnot]
  · intro hcal
    cases hcc : (b.google_calendar_connected && truthy b.google_calendar_id) <;>
      simp [mkApptRow, calendarEnrichment, hb, hcal, hcc]

/-- Witness for C1 at a concrete input. -/
theorem bookAppointment_calendar_independent_witness :
    (bookAppointment ctx0 apptEnvTzMismatch apptArgsJune {}).2.appointments
        = ([] : List Appointment) ++ [mkApptRow ctx0 apptEnvTzMismatch apptArgsJune] ∧
    (mkApptRow ctx0 apptEnvTzMismatch apptArgsJune).status = "scheduled" ∧
    (bookAppointment ctx0 apptEnvTzMismatch apptArgsJune {}).2.callOutcome
        = some "appointment_booked" ∧
    (apptEnvTzMismatch.calendarResult = .error () →
      (mkApptRow ctx0 apptEnvTzMismatch apptArgsJune).google_meet_link = none) :=
  bookAppointment_calendar_independent ctx0 apptEnvTzMismatch apptArgsJune {} {}
    (by decide) (by decide) (by decide) (by decide) (by decide)

/-- C2 counterexample: the code combines the date and time in the server's
local timezone and rejects only strictly past instants. First input: the
server runs in UTC while the tenant timezone is UTC+05:30, the combined
instant in the tenant timezone lies in the past, yet the tool books the
appointment instead of returning the date-has-passed message. Second
input: the combined instant equals the wall clock exactly (hence is not
strictly in the future), yet the tool books the appointment. -/
theorem bookAppointment_tz_counterexample :
    (specTenantInstantMin apptEnvTzMismatch apptArgsJune
        < apptEnvTzMismatch.nowEpochMin) ∧
    (bookAppointment ctx0 apptEnvTzMismatch apptArgsJune {}).1 ≠ .datePassed ∧
    (bookAppointment ctx0 apptEnvTzMismatch apptArgsJune {}).2.appointments ≠ [] ∧
    ¬ (specTenantInstantMin apptEnvBoundary apptArgsJune
        > apptEnvBoundary.nowEpochMin) ∧
    (bookAppointment ctx0 apptEnvBoundary apptArgsJune {}).1 ≠ .datePassed ∧
    (bookAppointment ctx0 apptEnvBoundary apptArgsJune {}).2.appointments ≠ [] := by
  decide

/-- C2 (amended): the date and time are combined into an instant in the
server-local timezone, and whenever that instant is strictly in the past
relative to the wall clock at invocation the tool returns the
date-has-passed message and performs no store write. -/
theorem bookAppointment_past_rejected
    (ctx : ToolCtx) (env : ApptEnv) (a : ApptArgs) (s : ApptStore)
    (hpast : scheduledAtEpochMin env a < env.nowEpochMin) :
    bookAppointment ctx env a s = (.datePassed, s) := by
  simp [bookAppointment, hpast]

/-- Witness for the amended C2 at a concrete input. -/
theorem bookAppointment_past_rejected_witness :
    bookAppointment ctx0
      { apptEnvBoundary with nowEpochMin := apptEnvBoundary.nowEpochMin + 5 }
      apptArgsJune {} = (.datePassed, {}) :=
  bookAppointment_past_rejected ctx0
    { apptEnvBoundary with nowEpochMin := apptEnvBoundary.nowEpochMin + 5 }
    apptArgsJune {} (by decide)

/-- C10: `book_appointment` is not atomic: when the appointment insert
succeeds but a later write (the audit-event insert or the call-outcome
update) throws, the tool returns the generic apology message while the
created appointment row remains in the store. -/
theorem bookAppointment_nonatomic
    (ctx : ToolCtx) (env : ApptEnv) (a : ApptArgs) (s : ApptStore)
    (b : Business)
    (hb : env.business = some b)
    (hfut : ¬ scheduledAtEpochMin env a < env.nowEpochMin)
    (hc : env.createAppointmentFails = false)
    (hfail : env.logEventFails = true ∨ env.updateCallFails = true) :
    (bookAppointment ctx env a s).1 = .bookFailed ∧
    (bookAppointment ctx env a s).2.appointments
        = s.appointments ++ [mkApptRow ctx env a] := by
  rcases hfail with h | h
  · constructor <;> simp [bookAppointment, hb, hc, hfut, h]
  · cases hlog : env.logEventFails <;>
      constructor <;> simp [bookAppointment, hb, hc, hfut, h, hlog]

/-- Witness for C10 at a concrete input. -/
theorem bookAppointment_nonatomic_witness :
    (bookAppointment ctx0 apptEnvLogFail apptArgsJune {}).1 = .bookFailed ∧
    (bookAppointment ctx0 apptEnvLogFail apptArgsJune {}).2.appointments
        = ([] : List Appointment) ++ [mkApptRow ctx0 apptEnvLogFail apptArgsJune] :=
  bookAppointment_nonatomic ctx0 apptEnvLogFail apptArgsJune {} {}
    (by decide) (by decide) (by decide) (Or.inl (by decide))

/-- C3: for every `create_lead` invocation in which the email argument,
the phone argument and the caller phone of the call context are all
absent, no store write occurs (the store is returned unchanged, so in
particular no lead row is created) and the returned message asks for
contact information. -/
theorem leadCapture_requires_contact
    (ctx : ToolCtx) (env : LeadEnv) (a : LeadArgs) (s : LeadStore)
    (he : truthy a.email = false) (hp : truthy a.phone = false)
    (hc : truthy ctx.callerPhone = false) :
    leadCapture ctx env a s = (.askContact, s) := by
  simp [leadCapture, he, hp, hc]

/-- Witness for C3 at a concrete input. -/
theorem leadCapture_requires_contact_witness :
    leadCapture ctx0 leadEnvErr { name := "Jane Smith" } {}
      = (.askContact, {}) :=
  leadCapture_requires_contact ctx0 leadEnvErr { name := "Jane Smith" } {}
    (by decide) (by decide) (by decide)

/-- C4: for every `create_lead` invocation with at least one contact
channel, a found business with a configured HubSpot API key, and
succeeding store writes: when the HubSpot call throws, the lead row is
still created, the call outcome is still set to `lead_captured`, and the
tool returns the normal confirmation (no exception propagates); when the
HubSpot call succeeds, the remote contact id and sync timestamp are
written back onto the lead row. -/
theorem leadCapture_crm_nonfatal
    (ctx : ToolCtx) (env : LeadEnv) (a : LeadArgs) (s : LeadStore)
    (b : Business)
    (hchan : truthy a.email = true ∨ truthy a.phone = true ∨
      truthy ctx.callerPhone = true)
    (hb : env.business = some b)
    (hkey : truthy b.hubspot_api_key = true)
    (h1 : env.createLeadFails = false) (h2 : env.updateLeadFails = false)
    (h3 : env.logEventFails = false) (h4 : env.updateCallFails = false) :
    (leadCapture ctx env a s).1 = .saved (truthy a.email) ∧
    (leadCapture ctx env a s).2.callOutcome = some "lead_captured" ∧
    (env.hubspotResult = .error () →
      (leadCapture ctx env a s).2.leads = s.leads ++ [mkLead ctx a]) ∧
    (∀ cid, env.hubspotResult = .ok cid →
      (leadCapture ctx env a s).2.leads = s.leads ++
        [{ mkLead ctx a with hubspot_contact_id := some cid,
                             synced_at := some env.nowEpochMin }]) := by
  have hguard : (!(truthy a.email) && !(truthy a.phone) &&
      !(truthy ctx.callerPhone)) = false := by
    rcases hchan with h | h | h <;> simp [h]
  cases hres : env.hubspotResult with
  | ok cid =>
    refine ⟨?_, ?_, ?_, ?_⟩ <;>
      simp [leadCapture, leadFinish, hguard, hb, hkey, h1, h2, h3, h4, hres]
  | error e =>
    refine ⟨?_, ?_, ?_, ?_⟩ <;>
      simp [leadCapture, leadFinish, hguard, hb, hkey, h1, h2, h3, h4, hres]

/-- Witness for C4 at a concrete input (CRM configured, HubSpot call
throwing). -/
theorem leadCapture_crm_nonfatal_witness :
    (leadCapture ctx0 leadEnvErr leadArgsJane {}).1
        = .saved (truthy leadArgsJane.email) ∧
    (leadCapture ctx0 leadEnvErr leadArgsJane {}).2.callOutcome
        = some "lead_captured" ∧
    (leadEnvErr.hubspotResult = .error () →
      (leadCapture ctx0 leadEnvErr leadArgsJane {}).2.leads
        = ([] : List Lead) ++ [mkLead ctx0 leadArgsJane]) ∧
    (∀ cid, leadEnvErr.hubspotResult = .ok cid →
      (leadCapture ctx0 leadEnvErr leadArgsJane {}).2.leads
        = ([] : List Lead) ++
          [{ mkLead ctx0 leadArgsJane with hubspot_contact_id := some cid,
                                           synced_at := some leadEnvErr.nowEpochMin }]) :=
  leadCapture_crm_nonfatal ctx0 leadEnvErr leadArgsJane {} bizHub
    (Or.inr (Or.inl (by decide))) (by decide) (by decide)
    (by decide) (by decide) (by decide) (by decide)

/-- C5: for every `transfer_to_human` invocation whose phone-number
configuration has no forwarding number (with the business and call
lookups succeeding), the store is returned unchanged — so
`transferred_to_human` is not set and no carrier-level redirect is
attempted — and the returned message is the team-will-follow-up one,
which does not read as an active transfer. -/
theorem transferToHuman_noForward
    (ctx : ToolCtx) (env : TransferEnv) (reason urgency : String)
    (notes : Option String) (s : TransferStore) (b : Business)
    (call : CallRow)
    (hb : env.business = some b)
    (hcall : env.call = some call)
    (hpn : truthy call.phone_number_id = true)
    (hfw : truthy (env.phoneNumber.bind (·.forward_to)) = false) :
    transferToHuman ctx env reason urgency notes s = (.noForwardFollowUp, s) ∧
    TransferMsg.inProgressWording .noForwardFollowUp = false := by
  refine ⟨?_, rfl⟩
  simp [transferToHuman, hb, hcall, hpn, hfw]

/-- Witness for C5 at a concrete input. -/
theorem transferToHuman_noForward_witness :
    transferToHuman ctx0 { transferEnvFwd with phoneNumber := some {} }
        "billing" "high" none {} = (.noForwardFollowUp, {}) ∧
    TransferMsg.inProgressWording .noForwardFollowUp = false :=
  transferToHuman_noForward ctx0 { transferEnvFwd with phoneNumber := some {} }
    "billing" "high" none {} {} { phone_number_id := some "pn-1" }
    (by decide) (by decide) (by decide) (by decide)

/-- C6: for every `transfer_to_human` invocation with a configured
forwarding number (business and call lookups and store writes
succeeding), the call is marked `transferred_to_human = true` with
outcome `transferred`, exactly one `transfer_initiated` audit event is
appended, and the returned message reads as a transfer in progress —
for every Twilio call SID value and every outcome of the carrier
redirect. -/
theorem transferToHuman_configured
    (ctx : ToolCtx) (env : TransferEnv) (reason urgency : String)
    (notes : Option String) (s : TransferStore) (b : Business)
    (call : CallRow)
    (hb : env.business = some b)
    (hcall : env.call = some call)
    (hpn : truthy call.phone_number_id = true)
    (hfw : truthy (env.phoneNumber.bind (·.forward_to)) = true)
    (h1 : env.updateCallFails = false) (h2 : env.logEventFails = false) :
    (transferToHuman ctx env reason urgency notes s).2.transferred_to_human = true ∧
    (transferToHuman ctx env reason urgency notes s).2.callOutcome
        = some "transferred" ∧
    (transferToHuman ctx env reason urgency notes s).2.events
        = s.events ++ ["transfer_initiated"] ∧
    (transferToHuman ctx env reason urgency notes s).2.events.count
        "transfer_initiated" = s.events.count "transfer_initiated" + 1 ∧
    TransferMsg.inProgressWording
        (transferToHuman ctx env reason urgency notes s).1 = true := by
  cases hsid : truthy ctx.twilioCallSid <;> cases hok : env.twilioOk <;>
    refine ⟨?_, ?_, ?_, ?_, ?_⟩ <;>
      simp [transferToHuman, hb, hcall, hpn, hfw, h1, h2, hsid, hok,
        TransferMsg.inProgressWording, List.count_append]

/-- Witness for C6 at a concrete input (redirect failing). -/
theorem transferToHuman_configured_witness :
    (transferToHuman ctx0 transferEnvFwd "billing" "high" none {}).2.transferred_to_human = true ∧
    (transferToHuman ctx0 transferEnvFwd "billing" "high" none {}).2.callOutcome
        = some "transferred" ∧
    (transferToHuman ctx0 transferEnvFwd "billing" "high" none {}).2.events
        = ([] : List String) ++ ["transfer_initiated"] ∧
    (transferToHuman ctx0 transferEnvFwd "billing" "high" none {}).2.events.count
        "transfer_initiated" = ([] : List String).count "transfer_initiated" + 1 ∧
    TransferMsg.inProgressWording
        (transferToHuman ctx0 transferEnvFwd "billing" "high" none {}).1 = true :=
  transferToHuman_configured ctx0 transferEnvFwd "billing" "high" none {} {}
    { phone_number_id := some "pn-1" }
    (by decide) (by decide) (by decide) (by decide) (by decide) (by decide)

/-- C7: evaluation at the failing input. With a business whose hours map
contains an entry for the current weekday (the repository's own fixture
hours) and a clock reading inside the open interval, `check_business_hours`
does not report open or closed: the `weekday: lowercase` option value is
rejected by the Intl formatter with a `RangeError`, so the tool always
falls into its catch handler and returns the generic callback prompt.
This contradicts the claim and the repository's own test, which asserts
the response mentions open, closed or hours. -/
theorem businessHours_weekday_option_bug :
    (hoursMonFri.lookup "monday").isSome = true ∧
    (jsStrGe "10:00" "09:00" && jsStrLt "10:00" "17:00") = true ∧
    businessHours { business := some bizWithHours, nowWeekday := .monday,
                    nowTimeHHMM := "10:00" } = .hoursErrorFallback ∧
    HoursMsg.hoursErrorFallback ≠ .openUntil ∧
    HoursMsg.hoursErrorFallback ≠ .closedNowOpenHours ∧
    HoursMsg.hoursErrorFallback ≠ .genericMonFri := by
  decide

/-- C8: for every session start whose metadata bundle is missing the
business id or the call id, the agent entry raises the fatal
missing-metadata error, for every business lookup result — in
particular the session is never constructed or started, so the turn loop
never runs. -/
theorem agentEntry_missing_metadata
    (meta : RoomMetadata) (business : Option Business)
    (h : truthy meta.businessId = false ∨ truthy meta.callId = false) :
    agentEntry meta business = .fatalMissingMetadata := by
  rcases h with h | h <;> simp [agentEntry, h]

/-- Witness for C8 at a concrete input. -/
theorem agentEntry_missing_metadata_witness :
    agentEntry { callId := some "call-1" } (some {}) = .fatalMissingMetadata :=
  agentEntry_missing_metadata { callId := some "call-1" } (some {})
    (Or.inl (by decide))

/-- C9 counterexample: the status-writing operations write unconditionally,
so the status can be overwritten from one terminal value to another and
even back to `in_progress`. Concretely, a Twilio callback delivering
`failed` moves the status to `failed`; a subsequent shutdown finalization
overwrites it with `completed`, violating the forward-only discipline;
and a session-start update applied to a `completed` call rewinds it to
`in_progress`. -/
theorem callStatus_forward_counterexample :
    applyStatusOp (.twilioCallback "failed") .in_progress = .failed ∧
    applyStatusOp .shutdownFinalize .failed = .completed ∧
    statusForwardOnly .failed .completed = false ∧
    applyStatusOp .sessionStart .completed = .in_progress ∧
    statusForwardOnly .completed .in_progress = false := by
  decide

/-- Helper for the amended C9: no telephony-callback or shutdown operation
can produce `in_progress` from a non-`in_progress` status. -/
theorem statusOp_not_in_progress (op : CallOp) (s : CallStatus)
    (hop : op ≠ .sessionStart) (hs : s ≠ .in_progress) :
    applyStatusOp op s ≠ .in_progress := by
  cases op with
  | sessionStart => exact absurd rfl hop
  | twilioCallback cs =>
    simp only [applyStatusOp]
    split
    · exact fun h => CallStatus.noConfusion h
    · split
      · exact fun h => CallStatus.noConfusion h
      · exact hs
  | shutdownFinalize => exact fun h => CallStatus.noConfusion h

/-- C9 (amended): the session-start update is the only operation that
writes `in_progress`; under any sequence of telephony status-callback and
shutdown operations, a status that has left `in_progress` never returns
to it — but one terminal value may overwrite another (last write wins),
as the counterexample shows. -/
theorem runStatusOps_never_back_to_in_progress (ops : List CallOp) :
    (∀ op ∈ ops, op ≠ CallOp.sessionStart) →
    ∀ s : CallStatus, s ≠ .in_progress →
      runStatusOps s ops ≠ .in_progress := by
  induction ops with
  | nil => intro _ s hs; simpa [runStatusOps] using hs
  | cons op rest ih =>
    intro hops s hs
    have h1 : op ≠ CallOp.sessionStart := hops op (List.mem_cons_self _ _)
    have hstep := statusOp_not_in_progress op s h1 hs
    have hrest := ih (fun o ho => hops o (List.mem_cons_of_mem _ ho))
      (applyStatusOp op s) hstep
    simpa [runStatusOps, List.foldl_cons] using hrest

/-- Witness for the amended C9 at a concrete operation sequence. -/
theorem runStatusOps_never_back_witness :
    (∀ op ∈ [CallOp.twilioCallback "no-answer", CallOp.shutdownFinalize],
      op ≠ CallOp.sessionStart) ∧
    runStatusOps .failed
      [CallOp.twilioCallback "no-answer", CallOp.shutdownFinalize]
      ≠ .in_progress :=
  ⟨by decide,
   runStatusOps_never_back_to_in_progress
     [CallOp.twilioCallback "no-answer", CallOp.shutdownFinalize]
     (by decide) .failed (by decide)⟩

end SMBVoice
